import Mathlib

/-!
Shallow embedding of `src/fastapi/app.py` (prompt-frame-gallery).

The program is a FastAPI service with three stores:
* a Postgres table `sim_images` (metadata rows keyed by `image_id`, with a
  `status` column, default `'pending'`),
* a MinIO blob bucket (only touched through opaque adapter calls; the blob
  fetch is modelled as an `Except` outcome),
* a Redis vector index whose documents are keyed by `img:<image_id>` (a
  key/value store, so we model it as a map `String → Option IndexEntry`).

Embeddings are float vectors in the source; we model them as `List ℝ`,
with `np.linalg.norm` as `Real.sqrt` of the sum of squares and elementwise
division as real division (note: Lean's real division by zero yields 0,
where NumPy float division 0/0 yields NaN with a warning — in both cases
no exception is raised, which is the fact the theorems below rely on).

External calls that can fail (MinIO fetch, SentenceTransformer load and
encode, the Redis search) are passed in as `Except` values / functions, so
each theorem quantifies over every possible outcome of the collaborators.
-/

namespace PromptFrameGallery

/-- Python string truthiness `s or dflt` for `str`: the empty string is falsy
(`title or ""` at app.py:170, `doc.title or ""` at app.py:244). -/
def pyOrStr (s dflt : String) : String :=
  if s = "" then dflt else s

/-- Python `str.split()` with no arguments: split on runs of whitespace and
drop empty pieces (`doc.tags.split()` at app.py:246). -/
def pySplitWs (s : String) : List String :=
  (s.split Char.isWhitespace).filter (fun t => t ≠ "")

/-- Truthiness of the optional `query_text` form field (`if query_text:` at
app.py:217): `None` and `""` are falsy. -/
def pyTruthyStr : Option String → Bool
  | none => false
  | some s => !(s == "")

/-- Status column default of the `sim_images` table created by
`ensure_tables` (app.py:62: `status TEXT DEFAULT 'pending'`). -/
def sim_images_status_default : String := "pending"

/-- One row of the `sim_images` table (app.py:57-64); `image_id` is the key
of the enclosing map so it is not repeated here. -/
structure MetaRow where
  title : String
  tags : Option (List String)
  url : String
  status : String
deriving Repr, DecidableEq

/-- One Redis document written by `add_document` (app.py:167-174). -/
structure IndexEntry where
  image_id : String
  title : String
  tags : String
  url : String
  embedding : List ℝ

/-- Arguments of the Celery task `compute_and_index(image_id, object_key,
title, tags)` (app.py:147); `tags: List[str] = None` is an optional list. -/
structure IndexingJob where
  image_id : String
  object_key : String
  title : String
  tags : Option (List String)

/-- Joint state of the Postgres metadata table and the Redis vector index,
each keyed by image id (the Redis key is `img:<image_id>`, so image id is
the key there too). -/
@[ext] structure DBState where
  meta : String → Option MetaRow
  index : String → Option IndexEntry

/-- Sum of squares of a vector, the quantity under the square root in
`np.linalg.norm`. -/
def sumSq (v : List ℝ) : ℝ := (v.map (fun x => x ^ 2)).sum

/-- Model of `np.linalg.norm(x)` for a single row: the L2 norm. -/
noncomputable def l2norm (v : List ℝ) : ℝ := Real.sqrt (sumSq v)

/-- Model of `x = x / np.linalg.norm(x, axis=1, keepdims=True)` for a single
row: elementwise division by the L2 norm (app.py:163-164 and 228-229 are
textually this same operation). -/
noncomputable def normalize (v : List ℝ) : List ℝ :=
  v.map (fun x => x / l2norm v)

/-- The Redis document built by `add_document` in `compute_and_index`
(app.py:167-174): `title=title or ""`, `tags=" ".join(tags or [])`,
`url=object_key`, `embedding=x[0].tolist()`. -/
noncomputable def mkEntry (job : IndexingJob) (x : List ℝ) : IndexEntry :=
  { image_id := job.image_id
  , title := pyOrStr job.title ""
  , tags := String.intercalate " " (job.tags.getD [])
  , url := job.object_key
  , embedding := x }

/-- Write of a Redis document under key `img:<id>`: a keyed overwrite
(the Redis hash for a key is replaced/updated in place, so the index can
never hold two documents for one id). -/
def upsertIndex (s : DBState) (id : String) (e : IndexEntry) : DBState :=
  { s with index := fun k => if k = id then some e else s.index k }

/-- Model of `UPDATE sim_images SET status=%s WHERE image_id=%s`
(app.py:179): unconditional on the previous status; a no-op when no row
with that id exists. -/
def setStatus (s : DBState) (id : String) (st : String) : DBState :=
  { s with meta := fun k =>
      if k = id then (s.meta k).map (fun r => { r with status := st })
      else s.meta k }

/-- Observable writes of a worker run, used to state the write-ordering
claims: each constructor is one store mutation of `compute_and_index`. -/
inductive Effect where
  | upsertEntry (id : String) (e : IndexEntry)
  | statusWrite (id : String) (st : String)

/-- Apply one store mutation to the joint state. -/
def applyEffect (s : DBState) : Effect → DBState
  | .upsertEntry id e => upsertIndex s id e
  | .statusWrite id st => setStatus s id st

/-- Mutation sequence of one delivery of `compute_and_index` (app.py:146-181),
in program order: fetch the blob (app.py:155, may raise), encode
(app.py:160, may raise), normalize (app.py:163-164), then the Redis
`add_document` (app.py:167-174) followed by the Postgres status update
(app.py:177-180). An exception before the writes yields an error and no
mutations. -/
noncomputable def workerEffects (fetch : Except String Unit)
    (embed : Except String (List ℝ)) (job : IndexingJob) :
    Except String (List Effect) :=
  match fetch with
  | .error e => .error e
  | .ok () =>
    match embed with
    | .error e => .error e
    | .ok emb =>
      let x := normalize emb
      .ok [ .upsertEntry job.image_id (mkEntry job x)
          , .statusWrite job.image_id "indexed" ]

/-- The Celery task `compute_and_index` (app.py:146-181) as a state
transformer: on success the final state after both writes, on a raised
exception the error with no state change. -/
noncomputable def compute_and_index (fetch : Except String Unit)
    (embed : Except String (List ℝ)) (job : IndexingJob) (s : DBState) :
    Except String DBState :=
  match fetch with
  | .error e => .error e
  | .ok () =>
    match embed with
    | .error e => .error e
    | .ok emb =>
      let x := normalize emb
      let s1 := upsertIndex s job.image_id (mkEntry job x)
      let s2 := setStatus s1 job.image_id "indexed"
      .ok s2

/-- State seen by everyone after one delivery: Celery leaves the stores as
the task left them; a raised exception leaves them untouched. -/
noncomputable def deliverOnce (fetch : Except String Unit)
    (embed : Except String (List ℝ)) (job : IndexingJob) (s : DBState) :
    DBState :=
  match compute_and_index fetch embed job s with
  | .ok s' => s'
  | .error _ => s

/-- The metadata insert of `upload_image` (app.py:197-203):
`INSERT ... VALUES (..., 'pending') ON CONFLICT (image_id) DO NOTHING`, with
`url` bound to `object_key` and `tags` to the parsed list or SQL NULL. -/
def upload_image_insert (s : DBState) (image_id title : String)
    (tag_list : Option (List String)) (object_key : String) : DBState :=
  match s.meta image_id with
  | some _ => s
  | none =>
    { s with meta := fun k =>
        if k = image_id then
          some { title := title, tags := tag_list, url := object_key
               , status := "pending" }
        else s.meta k }

/-- One document of a Redis search result as read by `search_vector`
(app.py:240-247): the named attributes plus the `__dict__.get` lookup for
the score, modelled as a partial map from attribute name to float. -/
structure SearchDoc where
  image_id : String
  title : String
  tags : String
  url : String
  extra : String → Option ℝ

/-- One element of the endpoint's `results` list (app.py:241-247). -/
structure SearchHit where
  image_id : String
  score : ℝ
  title : String
  url : String
  tags : List String

/-- The dict built per document (app.py:241-247):
`score = float(doc.__dict__.get('__score', 0))`, `title = doc.title or ""`,
`url = doc.url or ""`, `tags = doc.tags.split() if doc.tags else []`. -/
def mkHit (doc : SearchDoc) : SearchHit :=
  { image_id := doc.image_id
  , score := (doc.extra "__score").getD 0
  , title := pyOrStr doc.title ""
  , url := pyOrStr doc.url ""
  , tags := if doc.tags = "" then [] else pySplitWs doc.tags }

/-- Exceptions that can escape the body of `search_vector` into its outer
`except Exception` handler: the deliberately raised `HTTPException` or any
other exception (model load, encode, file I/O). -/
inductive PyExc where
  | httpExc (status_code : Nat) (detail : String)
  | other (msg : String)

/-- Python `str(e)` as used in `HTTPException(status_code=500, detail=str(e))`
(app.py:253); Starlette's `HTTPException.__str__` is
`f"{status_code}: {detail}"`. -/
def pyStrOfExc : PyExc → String
  | .httpExc c d => toString c ++ ": " ++ d
  | .other m => m

/-- Error result of an endpoint: the `HTTPException` the caller sees. -/
structure HTTPError where
  status_code : Nat
  detail : String
deriving Repr, DecidableEq

/-- The endpoint `search_vector` (app.py:211-253). Parameters model the
collaborators: `modelLoad` the `SentenceTransformer(...)` constructor
(app.py:216), `encodeText`/`encodeImage` the `model.encode` calls
(app.py:218, 223, including the query-image read/write), `redisSearch` the
`r.ft("image_vectors").search` KNN call (app.py:234-237) given `top_k` and
the normalized query vector. Control flow follows the source: an outer
`try` whose handler re-raises every exception as a 500 (app.py:252-253) —
including the `HTTPException(400)` raised when neither input is given
(app.py:225) — and an inner `try` around only the Redis search that
degrades to an empty result list (app.py:249-251). -/
noncomputable def search_vector (modelLoad : Except String Unit)
    (encodeText encodeImage : Except String (List ℝ))
    (redisSearch : Nat → List ℝ → Except String (List SearchDoc))
    (query_text : Option String) (query_image : Option Unit) (top_k : Nat) :
    Except HTTPError (List SearchHit) :=
  let body : Except PyExc (List SearchHit) :=
    match modelLoad with
    | .error m => .error (.other m)
    | .ok () =>
      let qres : Except PyExc (List ℝ) :=
        if pyTruthyStr query_text then
          match encodeText with
          | .error m => .error (.other m)
          | .ok v => .ok v
        else if query_image.isSome then
          match encodeImage with
          | .error m => .error (.other m)
          | .ok v => .ok v
        else
          .error (.httpExc 400 "Provide query_text or query_image")
      match qres with
      | .error e => .error e
      | .ok qraw =>
        let q := normalize qraw
        match redisSearch top_k q with
        | .ok docs => .ok (docs.map mkHit)
        | .error _ => .ok []
  match body with
  | .ok hits => .ok hits
  | .error e => .error { status_code := 500, detail := pyStrOfExc e }

/-! ### Normalization lemmas -/

/-- A sum of squares is nonnegative. -/
theorem sumSq_nonneg (v : List ℝ) : 0 ≤ sumSq v := by
  refine List.sum_nonneg ?_
  intro x hx
  rcases List.mem_map.mp hx with ⟨y, _, rfl⟩
  positivity

/-- Dividing every component by `c` divides the sum of squares by `c ^ 2`. -/
theorem sumSq_map_div (v : List ℝ) (c : ℝ) :
    sumSq (v.map (fun x => x / c)) = sumSq v / c ^ 2 := by
  induction v with
  | nil => simp [sumSq]
  | cons a t ih =>
    simp only [sumSq, List.map_cons, List.sum_cons] at ih ⊢
    rw [ih, div_pow, add_div]

/-- The square of the L2 norm is the sum of squares. -/
theorem l2norm_sq (v : List ℝ) : l2norm v ^ 2 = sumSq v := by
  simpa [l2norm] using Real.sq_sqrt (sumSq_nonneg v)

/-- A vector has zero L2 norm exactly when its sum of squares is zero. -/
theorem l2norm_eq_zero_iff (v : List ℝ) : l2norm v = 0 ↔ sumSq v = 0 := by
  constructor
  · intro h
    have := l2norm_sq v
    rw [h] at this
    simpa using this.symm
  · intro h
    simp [l2norm, h]

/-- Normalizing a vector of nonzero norm yields a unit vector. -/
theorem l2norm_normalize (v : List ℝ) (h : l2norm v ≠ 0) :
    l2norm (normalize v) = 1 := by
  have hs : sumSq v ≠ 0 := fun hz => h ((l2norm_eq_zero_iff v).mpr hz)
  have : sumSq (normalize v) = 1 := by
    rw [normalize, sumSq_map_div, l2norm_sq, div_self hs]
  rw [l2norm, this, Real.sqrt_one]

/-! ### Worker write ordering (C1) -/

/-- The worker's state transformer is the fold of its effect list. -/
theorem compute_and_index_eq_foldl (fetch : Except String Unit)
    (embed : Except String (List ℝ)) (job : IndexingJob) (s : DBState) :
    compute_and_index fetch embed job s =
      (workerEffects fetch embed job).map (fun effs => effs.foldl applyEffect s) := by
  cases fetch with
  | error e => rfl
  | ok u =>
    cases u
    cases embed with
    | error e => rfl
    | ok emb => rfl

/-- The spec's one-directional invariant: a row whose status is `indexed`
has a vector-index entry under the same id. -/
def statusIndexImplied (s : DBState) : Prop :=
  ∀ id r, s.meta id = some r → r.status = "indexed" → (s.index id).isSome = true

/-- Writing an index entry preserves the invariant (the metadata is
untouched and the index only gains an entry). -/
theorem statusIndexImplied_upsertIndex (s : DBState) (id : String)
    (e : IndexEntry) (h : statusIndexImplied s) :
    statusIndexImplied (upsertIndex s id e) := by
  intro id' r hm hst
  simp only [upsertIndex] at hm ⊢
  by_cases hid : id' = id
  · simp [hid]
  · simp only [if_neg hid]
    exact h id' r hm hst

/-- After the index upsert, marking the same id `indexed` preserves the
invariant: the id just received an entry, other rows are unchanged. -/
theorem statusIndexImplied_mark (s : DBState) (id : String) (e : IndexEntry)
    (h : statusIndexImplied s) :
    statusIndexImplied (setStatus (upsertIndex s id e) id "indexed") := by
  intro id' r hm hst
  simp only [setStatus, upsertIndex] at hm ⊢
  by_cases hid : id' = id
  · simp [hid]
  · simp only [if_neg hid] at hm ⊢
    exact h id' r hm hst

/-- C1: on every successful worker run the effect sequence is exactly the
index upsert for the job's image id (with matching `image_id` field in the
entry) followed by the status write to `indexed`; `compute_and_index` is
the fold of that sequence; and along every prefix of the sequence — i.e. at
every observation point during and after the run — a record whose status is
`indexed` has a vector-index entry, provided the invariant held at the
start. -/
theorem c1_index_write_before_status (fetch : Except String Unit)
    (embed : Except String (List ℝ)) (job : IndexingJob) (s : DBState)
    (effs : List Effect)
    (hrun : workerEffects fetch embed job = .ok effs)
    (hinv : statusIndexImplied s) :
    (∃ e, e.image_id = job.image_id ∧
        effs = [.upsertEntry job.image_id e, .statusWrite job.image_id "indexed"]) ∧
    compute_and_index fetch embed job s = .ok (effs.foldl applyEffect s) ∧
    ∀ n, statusIndexImplied ((effs.take n).foldl applyEffect s) := by
  cases fetch with
  | error e => simp [workerEffects] at hrun
  | ok u =>
    cases u
    cases embed with
    | error e => simp [workerEffects] at hrun
    | ok emb =>
      have heff : effs = [.upsertEntry job.image_id (mkEntry job (normalize emb)),
          .statusWrite job.image_id "indexed"] := by
        simpa [workerEffects] using hrun.symm
      subst heff
      refine ⟨⟨mkEntry job (normalize emb), rfl, rfl⟩, ?_, ?_⟩
      · rw [compute_and_index_eq_foldl, hrun]
        rfl
      · intro n
        match n with
        | 0 => simpa using hinv
        | 1 =>
          simpa [List.take, List.foldl, applyEffect] using
            statusIndexImplied_upsertIndex s job.image_id
              (mkEntry job (normalize emb)) hinv
        | Nat.succ (Nat.succ m) =>
          simpa [List.take, List.foldl, applyEffect] using
            statusIndexImplied_mark s job.image_id
              (mkEntry job (normalize emb)) hinv

/-- Concrete job used by the witnesses. -/
def job0 : IndexingJob :=
  { image_id := "img0", object_key := "similarity/img0.jpg"
  , title := "demo", tags := none }

/-- Empty stores, used as a concrete starting state by the witnesses. -/
def emptyState : DBState := ⟨fun _ => none, fun _ => none⟩

/-- The empty state satisfies the invariant. -/
theorem statusIndexImplied_emptyState : statusIndexImplied emptyState := by
  intro id r h
  simp [emptyState] at h

/-- Effect list of a successful run of `job0` on the embedding `[3, 4]`. -/
noncomputable def effs0 : List Effect :=
  [ .upsertEntry "img0" (mkEntry job0 (normalize [3, 4]))
  , .statusWrite "img0" "indexed" ]

/-- Witness for C1 at a concrete run: the empty state satisfies the
invariant, the effect list of the run is `effs0`, and the invariant holds
after every prefix of the run. -/
theorem c1_index_write_before_status_witness :
    workerEffects (.ok ()) (.ok [(3 : ℝ), 4]) job0 = .ok effs0 ∧
    statusIndexImplied emptyState ∧
    ∀ n, statusIndexImplied ((effs0.take n).foldl applyEffect emptyState) := by
  refine ⟨rfl, statusIndexImplied_emptyState, ?_⟩
  exact (c1_index_write_before_status (.ok ()) (.ok [3, 4]) job0 emptyState
    effs0 rfl statusIndexImplied_emptyState).2.2

/-! ### Retry behaviour (C2) and idempotence (C3) -/

/-- Concrete metadata row in status `pending`, as inserted by the upload
endpoint. -/
def pendingRow : MetaRow :=
  { title := "demo", tags := none, url := "similarity/img0.jpg"
  , status := "pending" }

/-- Concrete state holding exactly the pending row for `img0` and an empty
vector index. -/
def pendingState : DBState :=
  ⟨fun k => if k = "img0" then some pendingRow else none, fun _ => none⟩

/-- C2, counterexample: with the spec's scenario `max_attempts = 3`, three
deliveries of a job whose Embedder call always fails leave the record's row
exactly as it was — status `pending`, not `failed` — because each delivery
merely re-raises the error without touching any store; no attempt counter
exists in the schema, so nothing is incremented either. -/
theorem c2_bounded_retries_counterexample :
    compute_and_index (.ok ()) (.error "embedder down") job0 pendingState
      = .error "embedder down" ∧
    ((deliverOnce (.ok ()) (.error "embedder down") job0)^[3] pendingState).meta "img0"
      = some pendingRow ∧
    pendingRow.status = "pending" ∧ pendingRow.status ≠ "failed" := by
  refine ⟨rfl, ?_, rfl, by decide⟩
  rw [Function.iterate_fixed (rfl : deliverOnce (.ok ())
    (.error "embedder down") job0 pendingState = pendingState) 3]
  simp [pendingState]

/-- C2, amended: the worker has no retry bookkeeping at all. A delivery
whose Embedder call fails propagates the exception and leaves the joint
state untouched, so after any number of failing deliveries the state — in
particular every row's status — is exactly the initial one; no transition
to a `failed` status ever happens. -/
theorem c2_failing_embedder_leaves_state_unchanged (msg : String)
    (job : IndexingJob) (s : DBState) (n : ℕ) :
    compute_and_index (.ok ()) (.error msg) job s = .error msg ∧
    (deliverOnce (.ok ()) (.error msg) job)^[n] s = s :=
  ⟨rfl, Function.iterate_fixed rfl n⟩

/-- C3: a successful run is idempotent. If a run of `compute_and_index`
produced the end state `s'`, re-delivering the same job in state `s'`
succeeds and produces exactly `s'` again: the index write is a keyed
overwrite of the same document (no duplicate entry is possible), and the
status, set to `indexed` by the first run whenever the row exists, is
rewritten to `indexed`, never regressed. -/
theorem c3_redelivery_idempotent (v : List ℝ) (job : IndexingJob)
    (s s' : DBState)
    (h : compute_and_index (.ok ()) (.ok v) job s = .ok s') :
    compute_and_index (.ok ()) (.ok v) job s' = .ok s' ∧
    ∀ r, s.meta job.image_id = some r →
      s'.meta job.image_id = some { r with status := "indexed" } := by
  simp only [compute_and_index, Except.ok.injEq] at h
  subst h
  constructor
  · simp only [compute_and_index, Except.ok.injEq]
    refine DBState.ext ?_ ?_
    · funext k
      by_cases hk : k = job.image_id
      · subst hk
        simp only [setStatus, upsertIndex, eq_self_iff_true, if_true]
        cases s.meta job.image_id <;> rfl
      · simp [setStatus, upsertIndex, hk]
    · funext k
      by_cases hk : k = job.image_id
      · subst hk
        simp [setStatus, upsertIndex]
      · simp [setStatus, upsertIndex, hk]
  · intro r hr
    simp [setStatus, upsertIndex, hr]

/-- End state of the concrete run used by the C3 witness. -/
noncomputable def s3final : DBState :=
  setStatus (upsertIndex pendingState "img0" (mkEntry job0 (normalize [3, 4])))
    "img0" "indexed"

/-- Witness for C3: a concrete successful run from the pending state, its
re-delivery reaching the same end state, and the status ending `indexed`. -/
theorem c3_redelivery_idempotent_witness :
    compute_and_index (.ok ()) (.ok [(3 : ℝ), 4]) job0 pendingState = .ok s3final ∧
    compute_and_index (.ok ()) (.ok [(3 : ℝ), 4]) job0 s3final = .ok s3final ∧
    s3final.meta "img0" = some { pendingRow with status := "indexed" } := by
  refine ⟨rfl, ?_, ?_⟩
  · exact (c3_redelivery_idempotent [3, 4] job0 pendingState s3final rfl).1
  · exact (c3_redelivery_idempotent [3, 4] job0 pendingState s3final rfl).2
      pendingRow (by simp [pendingState, job0])

/-! ### Search-path error handling (C4, C5, C6) -/

/-- C4, counterexample: an Embedder failure is not degraded to an empty
result set — with a healthy index, a text query whose encode call raises
makes the endpoint return an HTTP 500 error, because the encode call sits
in the outer `try` (app.py:216-223) whose handler re-raises
(app.py:252-253); only the Redis search is inside the degrading inner
`try`. -/
theorem c4_search_never_fails_counterexample :
    search_vector (.ok ()) (.error "embedder down") (.ok []) (fun _ _ => .ok [])
        (some "cat") none 10
      = .error { status_code := 500, detail := "embedder down" } ∧
    search_vector (.ok ()) (.error "embedder down") (.ok []) (fun _ _ => .ok [])
        (some "cat") none 10 ≠ .ok [] := by
  have h : search_vector (.ok ()) (.error "embedder down") (.ok [])
      (fun _ _ => .ok []) (some "cat") none 10
      = .error { status_code := 500, detail := "embedder down" } := rfl
  refine ⟨h, ?_⟩
  rw [h]
  intro hc
  exact Except.noConfusion hc

/-- C4, amended: the degrade-gracefully policy covers only the vector-index
query. For a nonempty text query, a failing Redis search yields an empty
result list, while a failing Embedder call propagates out of the endpoint
as an HTTP 500 error carrying the exception message. -/
theorem c4_empty_results_only_on_index_failure (t : String) (ht : t ≠ "")
    (v : List ℝ) (encodeImage : Except String (List ℝ)) (emsg m : String)
    (k : Nat) :
    search_vector (.ok ()) (.ok v) encodeImage (fun _ _ => .error emsg)
        (some t) none k = .ok [] ∧
    ∀ rs, search_vector (.ok ()) (.error m) encodeImage rs (some t) none k
        = .error { status_code := 500, detail := m } := by
  have hb : (t == "") = false := by
    simpa using ht
  constructor
  · simp [search_vector, pyTruthyStr, hb]
  · intro rs
    simp [search_vector, pyTruthyStr, hb, pyStrOfExc]

/-- Witness for C4 (amended) at a concrete query: a failing index search
degrades to an empty result list. -/
theorem c4_empty_results_only_on_index_failure_witness :
    ("cat" : String) ≠ "" ∧
    search_vector (.ok ()) (.ok [(3 : ℝ), 4]) (.ok [])
        (fun _ _ => .error "redis down") (some "cat") none 10 = .ok [] := by
  have ht : ("cat" : String) ≠ "" := by decide
  exact ⟨ht, (c4_empty_results_only_on_index_failure "cat" ht [3, 4] (.ok [])
    "redis down" "unused" 10).1⟩

/-- C5: calling the endpoint with neither `query_text` nor `query_image`
raises `HTTPException(400, "Provide query_text or query_image")`
(app.py:225), but the outer handler (app.py:252-253) catches that very
exception and re-raises it as a 500, so the caller observes HTTP 500 —
an internal-server error, not the intended malformed-input 400. The 400
only survives inside the 500's detail string via Starlette's `str`. -/
theorem c5_neither_input_yields_500 (encodeText encodeImage : Except String (List ℝ))
    (rs : Nat → List ℝ → Except String (List SearchDoc)) (k : Nat) :
    search_vector (.ok ()) encodeText encodeImage rs none none k
      = .error { status_code := 500, detail := "400: Provide query_text or query_image" } ∧
    (500 : Nat) ≠ 400 := by
  exact ⟨rfl, by decide⟩

/-- C6, counterexample: supplying both a nonempty text query and an image
is not rejected — the call succeeds (here with an empty hit list), because
`if query_text:` (app.py:217) wins and the image is never consulted. -/
theorem c6_both_inputs_counterexample :
    search_vector (.ok ()) (.ok [(3 : ℝ), 4]) (.ok [(5 : ℝ), 6])
        (fun _ _ => .ok []) (some "cat") (some ()) 10 = .ok [] ∧
    ∀ e, search_vector (.ok ()) (.ok [(3 : ℝ), 4]) (.ok [(5 : ℝ), 6])
        (fun _ _ => .ok []) (some "cat") (some ()) 10 ≠ .error e := by
  have h : search_vector (.ok ()) (.ok [(3 : ℝ), 4]) (.ok [(5 : ℝ), 6])
      (fun _ _ => .ok []) (some "cat") (some ()) 10 = .ok [] := rfl
  refine ⟨h, ?_⟩
  intro e
  rw [h]
  intro hc
  exact Except.noConfusion hc

/-- C6, amended: with a nonempty text query the endpoint behaves exactly as
if no image had been supplied — the text modality is picked silently and
the image is ignored; no error is raised on account of the double
supply. -/
theorem c6_both_inputs_text_wins (m : Except String Unit)
    (encodeText encodeImage : Except String (List ℝ))
    (rs : Nat → List ℝ → Except String (List SearchDoc))
    (t : String) (ht : t ≠ "") (img : Unit) (k : Nat) :
    search_vector m encodeText encodeImage rs (some t) (some img) k
      = search_vector m encodeText encodeImage rs (some t) none k := by
  have hb : (t == "") = false := by
    simpa using ht
  cases m with
  | error e => rfl
  | ok u =>
    cases u
    simp [search_vector, pyTruthyStr, hb]

/-- Witness for C6 (amended) at a concrete call with both inputs. -/
theorem c6_both_inputs_text_wins_witness :
    ("cat" : String) ≠ "" ∧
    search_vector (.ok ()) (.ok [(3 : ℝ), 4]) (.ok [(5 : ℝ), 6])
        (fun _ _ => .ok []) (some "cat") (some ()) 10
      = search_vector (.ok ()) (.ok [(3 : ℝ), 4]) (.ok [(5 : ℝ), 6])
        (fun _ _ => .ok []) (some "cat") none 10 := by
  have ht : ("cat" : String) ≠ "" := by decide
  exact ⟨ht, c6_both_inputs_text_wins (.ok ()) (.ok [3, 4]) (.ok [5, 6])
    (fun _ _ => .ok []) "cat" ht () 10⟩

/-! ### Unit-norm round trip (C7) and the zero vector (C8) -/

/-- C7: for raw vectors of nonzero norm, both sides of the round trip are
unit vectors — the entry a successful worker run stores under the job's id
carries `normalize e` with L2 norm 1, and for a query the vector handed to
the Redis KNN search is `normalize q`, also of L2 norm 1 (in the
real-valued model, "within floating-point tolerance" is exact equality). -/
theorem c7_stored_and_query_vectors_unit_norm (e q : List ℝ)
    (he : l2norm e ≠ 0) (hq : l2norm q ≠ 0) (job : IndexingJob)
    (s s' : DBState)
    (hrun : compute_and_index (.ok ()) (.ok e) job s = .ok s') :
    (∃ entry, s'.index job.image_id = some entry ∧
        entry.embedding = normalize e ∧ l2norm entry.embedding = 1) ∧
    l2norm (normalize q) = 1 ∧
    ∀ (encodeImage : Except String (List ℝ))
      (rs : Nat → List ℝ → Except String (List SearchDoc)) (k : Nat),
      search_vector (.ok ()) (.ok q) encodeImage rs (some "q") none k
        = match rs k (normalize q) with
          | .ok docs => .ok (docs.map mkHit)
          | .error _ => .ok [] := by
  simp only [compute_and_index, Except.ok.injEq] at hrun
  subst hrun
  refine ⟨⟨mkEntry job (normalize e), ?_, rfl, ?_⟩, l2norm_normalize q hq, ?_⟩
  · simp [setStatus, upsertIndex]
  · simpa [mkEntry] using l2norm_normalize e he
  · intro encodeImage rs k
    cases hrs : rs k (normalize q) with
    | ok docs => simp [search_vector, pyTruthyStr, hrs]
    | error msg => simp [search_vector, pyTruthyStr, hrs]

/-- Witness for C7 at the raw vector `[3, 4]` (norm 5): the concrete run
from the pending state stores a unit-norm embedding. -/
theorem c7_stored_and_query_vectors_unit_norm_witness :
    l2norm [(3 : ℝ), 4] ≠ 0 ∧
    compute_and_index (.ok ()) (.ok [(3 : ℝ), 4]) job0 pendingState = .ok s3final ∧
    (∃ entry, s3final.index "img0" = some entry ∧
        entry.embedding = normalize [(3 : ℝ), 4] ∧ l2norm entry.embedding = 1) ∧
    l2norm (normalize [(3 : ℝ), 4]) = 1 := by
  have hpos : (0 : ℝ) < l2norm [(3 : ℝ), 4] := by
    rw [l2norm]
    apply Real.sqrt_pos.mpr
    norm_num [sumSq]
  have hne : l2norm [(3 : ℝ), 4] ≠ 0 := ne_of_gt hpos
  have h := c7_stored_and_query_vectors_unit_norm [3, 4] [3, 4] hne hne job0
    pendingState s3final rfl
  exact ⟨hne, rfl, h.1, h.2.1⟩

/-- End state of the zero-vector run used by the C8 theorems. -/
noncomputable def s8final : DBState :=
  setStatus (upsertIndex pendingState "img0" (mkEntry job0 (normalize [0, 0])))
    "img0" "indexed"

/-- C8, counterexample: a zero raw embedding is not treated as an error.
`x / np.linalg.norm(x)` divides by zero — NumPy emits a warning and
produces non-finite floats, raising nothing (real division by zero is 0 in
the model; in neither semantics is an exception thrown) — so the run
succeeds, a vector-index entry for the image is written, and the record is
marked `indexed`. -/
theorem c8_zero_vector_counterexample :
    compute_and_index (.ok ()) (.ok [(0 : ℝ), 0]) job0 pendingState = .ok s8final ∧
    (s8final.index "img0").isSome = true ∧
    s8final.meta "img0" = some { pendingRow with status := "indexed" } := by
  refine ⟨rfl, ?_, ?_⟩
  · simp [s8final, setStatus, upsertIndex]
  · simp [s8final, setStatus, upsertIndex, pendingState]

/-- C8, amended: the worker has no degenerate-embedding check. When the
raw embedding has zero norm the run still succeeds: the stored entry holds
the elementwise quotient by zero (each component 0 in the real model,
non-finite floats in NumPy), and the row, if present, is set to `indexed`
rather than entering any retry or failure path. -/
theorem c8_zero_vector_stored_not_error (job : IndexingJob) (s : DBState)
    (v : List ℝ) (hv : l2norm v = 0) :
    ∃ s', compute_and_index (.ok ()) (.ok v) job s = .ok s' ∧
      s'.index job.image_id = some (mkEntry job (normalize v)) ∧
      (∀ x ∈ (mkEntry job (normalize v)).embedding, x = 0) ∧
      s'.meta job.image_id
        = (s.meta job.image_id).map (fun r => { r with status := "indexed" }) := by
  refine ⟨_, rfl, ?_, ?_, ?_⟩
  · simp [setStatus, upsertIndex]
  · intro x hx
    simp only [mkEntry, normalize, hv] at hx
    rcases List.mem_map.mp hx with ⟨y, _, rfl⟩
    exact div_zero y
  · simp [setStatus, upsertIndex]

/-- Witness for C8 (amended) at the zero vector `[0, 0]`. -/
theorem c8_zero_vector_stored_not_error_witness :
    l2norm [(0 : ℝ), 0] = 0 ∧
    ∃ s', compute_and_index (.ok ()) (.ok [(0 : ℝ), 0]) job0 pendingState = .ok s' ∧
      s'.index "img0" = some (mkEntry job0 (normalize [0, 0])) ∧
      (∀ x ∈ (mkEntry job0 (normalize [0, 0])).embedding, x = 0) := by
  have hz : l2norm [(0 : ℝ), 0] = 0 := by
    simp [l2norm, sumSq]
  have h := c8_zero_vector_stored_not_error job0 pendingState [0, 0] hz
  rcases h with ⟨s', h1, h2, h3, _⟩
  exact ⟨hz, s', h1, h2, h3⟩

/-! ### Status vocabulary and write discipline (C9), score extraction (C10) -/

/-- C9: the only status values any code path ever writes are `pending`
(the column default of `ensure_tables` and the value inserted by the upload
endpoint) and `indexed` (written by the worker); no operation assigns
`indexing` or `failed`; and the worker's status write is unconditional — it
sets `indexed` whatever the previous status of the row was, with no
compare-and-set. -/
theorem c9_status_writes :
    sim_images_status_default = "pending" ∧
    (∀ (s : DBState) (id t : String) (tl : Option (List String)) (okey k : String),
      (upload_image_insert s id t tl okey).meta k = s.meta k ∨
      ∃ r, (upload_image_insert s id t tl okey).meta k = some r ∧
        r.status = "pending") ∧
    (∀ (fetch : Except String Unit) (emb : Except String (List ℝ))
       (job : IndexingJob) (s s' : DBState),
      compute_and_index fetch emb job s = .ok s' →
      ∀ k, s'.meta k = s.meta k ∨
        ∃ r, s'.meta k = some r ∧ r.status = "indexed") ∧
    (∀ (v : List ℝ) (job : IndexingJob) (s : DBState) (r : MetaRow),
      s.meta job.image_id = some r →
      ∃ s', compute_and_index (.ok ()) (.ok v) job s = .ok s' ∧
        s'.meta job.image_id = some { r with status := "indexed" }) := by
  refine ⟨rfl, ?_, ?_, ?_⟩
  · intro s id t tl okey k
    cases hm : s.meta id with
    | some r => exact Or.inl (by simp [upload_image_insert, hm])
    | none =>
      by_cases hk : k = id
      · refine Or.inr
          ⟨{ title := t, tags := tl, url := okey, status := "pending" }, ?_, rfl⟩
        simp [upload_image_insert, hm, hk]
      · exact Or.inl (by simp [upload_image_insert, hm, hk])
  · intro fetch emb job s s' h k
    cases fetch with
    | error e => simp [compute_and_index] at h
    | ok u =>
      cases u
      cases emb with
      | error e => simp [compute_and_index] at h
      | ok v =>
        simp only [compute_and_index, Except.ok.injEq] at h
        subst h
        by_cases hk : k = job.image_id
        · cases hm : s.meta job.image_id with
          | none => exact Or.inl (by simp [setStatus, upsertIndex, hk, hm])
          | some r =>
            refine Or.inr ⟨{ r with status := "indexed" }, ?_, rfl⟩
            simp [setStatus, upsertIndex, hk, hm]
        · exact Or.inl (by simp [setStatus, upsertIndex, hk])
  · intro v job s r hr
    exact ⟨_, rfl, by simp [setStatus, upsertIndex, hr]⟩

/-- Witness for C9 at a concrete pending row: the worker's unconditional
write sets it to `indexed`, and a concrete upload insert writes
`pending`. -/
theorem c9_status_writes_witness :
    pendingState.meta "img0" = some pendingRow ∧
    (∃ s', compute_and_index (.ok ()) (.ok [(1 : ℝ)]) job0 pendingState = .ok s' ∧
      s'.meta "img0" = some { pendingRow with status := "indexed" }) ∧
    (∃ r, (upload_image_insert emptyState "img1" "t" none "k1").meta "img1"
        = some r ∧ r.status = "pending") := by
  have hmeta : pendingState.meta "img0" = some pendingRow := by
    simp [pendingState]
  refine ⟨hmeta, ?_, ?_⟩
  · exact c9_status_writes.2.2.2 [1] job0 pendingState pendingRow hmeta
  · rcases c9_status_writes.2.1 emptyState "img1" "t" none "k1" "img1" with h | h
    · simp [upload_image_insert, emptyState] at h
    · exact h

/-- C10: a hit's score is exactly `doc.__dict__.get('__score', 0)` coerced
to float — the lookup of the attribute literally named `__score`,
defaulting to 0 when absent — and it is a function of that attribute alone:
the endpoint on a successful Redis search returns `docs.map mkHit` and
never recomputes any similarity from embeddings (no embedding is even read
back from the documents). -/
theorem c10_score_from_score_attribute (v : List ℝ)
    (encodeImage : Except String (List ℝ)) (docs : List SearchDoc)
    (t : String) (ht : t ≠ "") (k : Nat) :
    search_vector (.ok ()) (.ok v) encodeImage (fun _ _ => .ok docs)
        (some t) none k = .ok (docs.map mkHit) ∧
    (∀ doc : SearchDoc, (mkHit doc).score = (doc.extra "__score").getD 0) ∧
    (∀ doc : SearchDoc, doc.extra "__score" = none → (mkHit doc).score = 0) ∧
    (∀ d₁ d₂ : SearchDoc, d₁.extra "__score" = d₂.extra "__score" →
      (mkHit d₁).score = (mkHit d₂).score) := by
  have hb : (t == "") = false := by
    simpa using ht
  refine ⟨?_, fun doc => rfl, ?_, ?_⟩
  · simp [search_vector, pyTruthyStr, hb]
  · intro doc h
    simp [mkHit, h]
  · intro d₁ d₂ h
    simp [mkHit, h]

/-- Concrete result document with no `__score` attribute. -/
def doc10 : SearchDoc :=
  { image_id := "img0", title := "demo", tags := "", url := "u"
  , extra := fun _ => none }

/-- Witness for C10 at a concrete query returning `doc10`, whose missing
`__score` attribute yields score 0. -/
theorem c10_score_from_score_attribute_witness :
    ("cat" : String) ≠ "" ∧
    search_vector (.ok ()) (.ok [(3 : ℝ), 4]) (.ok [])
        (fun _ _ => .ok [doc10]) (some "cat") none 10 = .ok [mkHit doc10] ∧
    (mkHit doc10).score = 0 := by
  have ht : ("cat" : String) ≠ "" := by decide
  have h := c10_score_from_score_attribute [3, 4] (.ok []) [doc10] "cat" ht 10
  exact ⟨ht, h.1, h.2.2.1 doc10 rfl⟩

end PromptFrameGallery
